import Mathlib

/-!
Shallow embedding of the DataTable component of the css-design-system
repository (source file with the Column interface, the SkeletonRow helper
and the DataTable function component).

JavaScript runtime values that can flow through a cell are modelled by the
inductive type JSValue, which keeps the distinction between null, undefined,
booleans, numbers, strings and React element nodes, together with the
JavaScript notion of truthiness. A row of the generic row type T
(constrained to Record of string to unknown in the source) is an association
list from string keys to JSValue; a missing key reads as undefined, exactly
as property access does in JavaScript.
-/

inductive JSValue : Type where
  | null : JSValue
  | undefined : JSValue
  | bool : Bool → JSValue
  | num : Int → JSValue
  | str : String → JSValue
  | node : String → JSValue → JSValue
deriving DecidableEq

/-- JavaScript truthiness of a runtime value: null, undefined, false, 0 and
the empty string are falsy; every other value, including every element node,
is truthy. -/
def JSValue.truthy : JSValue → Bool
  | JSValue.null => false
  | JSValue.undefined => false
  | JSValue.bool b => b
  | JSValue.num n => n != 0
  | JSValue.str s => s != ""
  | JSValue.node _ _ => true

/-- A row of the table: the generic parameter T of the component, which the
source constrains to Record of string keys to unknown values. -/
abbrev Row : Type := List (String × JSValue)

/-- Property access row[k] in JavaScript: the stored value when the key is
present, undefined when it is absent. -/
def lookupRow (row : Row) (k : String) : JSValue :=
  match List.lookup k row with
  | some v => v
  | none => JSValue.undefined

/-- The accessor field of a column: in the source it is either a field key
of T (a string) or a function from the row to a value. -/
inductive Accessor : Type where
  | field : String → Accessor
  | fn : (Row → JSValue) → Accessor

/-- JavaScript truthiness of an accessor value: a function is always truthy,
a string key is truthy exactly when it is nonempty. -/
def Accessor.truthy : Accessor → Bool
  | Accessor.fn _ => true
  | Accessor.field k => k != ""

/-- Text alignment of a column. -/
inductive Align : Type where
  | left : Align
  | center : Align
  | right : Align
deriving DecidableEq

/-- The Column interface of the source: id, header, optional accessor,
optional custom cell renderer, optional width, alignment and sortable flag.
The cell renderer receives the props object with value, row and index
fields, modelled as three curried arguments in that order. -/
structure Column : Type where
  id : String
  header : JSValue
  accessor : Option Accessor
  cell : Option (JSValue → Row → Nat → JSValue)
  width : Option JSValue
  align : Option Align
  sortable : Option Bool

/-- The DataTableProps of the source after the default values of the
destructuring have been applied (loading, bordered, striped default to
false, hoverable defaults to true). The onRowClick callback is modelled by
its presence, which is all the rendered markup depends on. -/
structure DataTableProps : Type where
  columns : List Column
  data : List Row
  loading : Bool
  emptyState : Option JSValue
  bordered : Bool
  striped : Bool
  hoverable : Bool
  getRowKey : Option (Row → Nat → JSValue)
  onRowClick : Bool

/-- The getCellValue helper of DataTable: if column.accessor is truthy then
a function accessor is applied to the row and a field key accessor is looked
up on the row; otherwise the value is null. The truthiness test mirrors the
JavaScript condition `if (column.accessor)`. -/
def getCellValue (row : Row) (column : Column) : JSValue :=
  match column.accessor with
  | some a =>
    if a.truthy then
      match a with
      | Accessor.fn f => f row
      | Accessor.field k => lookupRow row k
    else JSValue.null
  | none => JSValue.null

/-- The renderCell helper of DataTable: compute the value with getCellValue,
pass it to the custom cell renderer together with the row and the index when
column.cell is defined, otherwise render the value itself. -/
def renderCell (row : Row) (column : Column) (index : Nat) : JSValue :=
  let value := getCellValue row column
  match column.cell with
  | some cellFn => cellFn value row index
  | none => value

/-- The isEmpty flag of DataTable: not loading and data.length is zero. -/
def isEmpty (loading : Bool) (data : List Row) : Bool :=
  !loading && data.length == 0

/-- The animated placeholder div rendered inside each skeleton cell. -/
def pulseDiv : JSValue :=
  JSValue.node "div" JSValue.null

/-- The SkeletonRow component of the source: one placeholder cell, each
holding the animated pulse div, per column. -/
def SkeletonRow (columns : Nat) : List JSValue :=
  (List.range columns).map fun _ => pulseDiv

/-- The default empty state markup: a div with the literal message. -/
def defaultEmptyMessage : JSValue :=
  JSValue.node "div" (JSValue.str "No data available")

/-- The content of the single empty state cell: the expression
`emptyState || defaultMessage` of the source, with an absent prop reading as
undefined, hence falsy. -/
def emptyStateContent (emptyState : Option JSValue) : JSValue :=
  match emptyState with
  | some v => if v.truthy then v else defaultEmptyMessage
  | none => defaultEmptyMessage

/-- The row key expression of the source: getRowKey applied to the row and
the index when the prop is supplied, the positional index otherwise. -/
def rowKeyOf (getRowKey : Option (Row → Nat → JSValue)) (row : Row) (index : Nat) : JSValue :=
  match getRowKey with
  | some f => f row index
  | none => JSValue.num (Int.ofNat index)

/-- A rendered td of a data row: the key prop (the column id), the
alignment classes and the rendered content. -/
structure RenderedCell : Type where
  columnId : String
  align : Option Align
  content : JSValue
deriving DecidableEq

/-- A rendered tr of the table body: a skeleton row with its key and its
placeholder cells, the single empty state row with its colSpan and content,
or a data row with its key, its styling flags and its cells. -/
inductive BodyRow : Type where
  | skeleton : Nat → List JSValue → BodyRow
  | emptyMessage : Nat → JSValue → BodyRow
  | dataRow : JSValue → Bool → Bool → Bool → List RenderedCell → BodyRow
deriving DecidableEq

/-- A rendered th of the header row. -/
structure HeaderCell : Type where
  columnId : String
  content : JSValue
  align : Option Align
  width : Option JSValue
deriving DecidableEq

/-- The whole rendered table: the header row and the body rows. -/
structure RenderedTable : Type where
  header : List HeaderCell
  body : List BodyRow
deriving DecidableEq

/-- List.map with the element index, mirroring the index argument of the
JavaScript Array map callback. -/
def mapIndexed (f : Nat → α → β) : Nat → List α → List β
  | _, [] => []
  | i, a :: rest => f i a :: mapIndexed f (i + 1) rest

/-- One rendered data row of the source: key from rowKeyOf, the striped
background on odd indices when striped is set, the hover background when
hoverable is set, the pointer cursor when onRowClick is supplied, and one
cell per column rendered by renderCell. -/
def renderDataRow (p : DataTableProps) (index : Nat) (row : Row) : BodyRow :=
  BodyRow.dataRow (rowKeyOf p.getRowKey row index)
    (p.striped && index % 2 == 1)
    p.hoverable
    p.onRowClick
    (p.columns.map fun c => RenderedCell.mk c.id c.align (renderCell row c index))

/-- The tbody of the source: five skeleton rows while loading, the single
full width empty state row when isEmpty, and one data row per element of
data otherwise. -/
def renderBody (p : DataTableProps) : List BodyRow :=
  if p.loading then
    (List.range 5).map fun i => BodyRow.skeleton i (SkeletonRow p.columns.length)
  else if isEmpty p.loading p.data then
    [BodyRow.emptyMessage p.columns.length (emptyStateContent p.emptyState)]
  else
    mapIndexed (renderDataRow p) 0 p.data

/-- The header row of the source: one th per column with the column id as
key, the header content, the alignment and the width. -/
def renderHeader (columns : List Column) : List HeaderCell :=
  columns.map fun c => HeaderCell.mk c.id c.header c.align c.width

/-- The DataTable component: the rendered header and body as a function of
the props. -/
def DataTable (p : DataTableProps) : RenderedTable :=
  RenderedTable.mk (renderHeader p.columns) (renderBody p)

theorem mapIndexed_length (f : Nat → α → β) (n : Nat) (l : List α) :
    (mapIndexed f n l).length = l.length := by
  induction l generalizing n with
  | nil => rfl
  | cons a rest ih => simp [mapIndexed, ih]

theorem mapIndexed_get? (f : Nat → α → β) (n i : Nat) (l : List α) :
    (mapIndexed f n l).get? i = (l.get? i).map fun a => f (n + i) a := by
  induction l generalizing n i with
  | nil => simp [mapIndexed]
  | cons a rest ih =>
    cases i with
    | zero => simp [mapIndexed]
    | succ j =>
      simp only [mapIndexed, List.get?, ih, Nat.add_succ, Nat.succ_add]

/-! ### Concrete fixtures used by witnesses and counterexamples -/

/-- A column reading the name field of the row. -/
def colName : Column :=
  Column.mk "name" (JSValue.str "Name") (some (Accessor.field "name")) none none none none

/-- A column reading the status field of the row. -/
def colStatus : Column :=
  Column.mk "status" (JSValue.str "Status") (some (Accessor.field "status")) none none none none

/-- A sample row with name and status fields. -/
def rowAlice : Row :=
  [("name", JSValue.str "Alice"), ("status", JSValue.str "active")]

/-- A function accessor used by the fixtures. -/
def boldName : Row → JSValue :=
  fun row => JSValue.node "b" (lookupRow row "name")

/-! ### C1 -/

/-- Row holding a value under the empty string key. -/
def c1Row : Row := [("", JSValue.str "x")]

/-- A cell renderer that displays the value it receives. -/
def c1CellFn : JSValue → Row → Nat → JSValue := fun v _ _ => v

/-- Column with the empty string field key as accessor and a cell renderer. -/
def c1Column : Column :=
  Column.mk "c" JSValue.null (some (Accessor.field "")) (some c1CellFn) none none none

/-- C1 counterexample: for the column whose accessor is the empty string
field key, the cell renderer receives null instead of the field key lookup
on the row, so the rendered content differs from cell applied to the looked
up value, refuting the claim as stated at this input. -/
theorem c1_counterexample :
    renderCell c1Row c1Column 0 = JSValue.null
    ∧ c1CellFn (lookupRow c1Row "") c1Row 0 = JSValue.str "x"
    ∧ renderCell c1Row c1Column 0 ≠ c1CellFn (lookupRow c1Row "") c1Row 0 := by
  decide

/-- C1 (amended): for every row, row index, and column whose cell renderer
is defined, the rendered cell content equals the renderer applied to the
props value, row and index, where value is getCellValue of the row and
column: the accessor function applied to the row, the lookup of a nonempty
field key on the row, and null when the column has no accessor or the
accessor is the empty string key. -/
theorem c1_cell_renderer_receives_accessor_value (row : Row) (col : Column) (i : Nat)
    (f : JSValue → Row → Nat → JSValue) (h : col.cell = some f) :
    renderCell row col i = f (getCellValue row col) row i
    ∧ (∀ g, col.accessor = some (Accessor.fn g) → getCellValue row col = g row)
    ∧ (∀ k, col.accessor = some (Accessor.field k) → k ≠ "" →
        getCellValue row col = lookupRow row k)
    ∧ ((col.accessor = none ∨ col.accessor = some (Accessor.field "")) →
        getCellValue row col = JSValue.null) := by
  refine ⟨?_, ?_, ?_, ?_⟩
  · simp [renderCell, h]
  · intro g hg
    simp [getCellValue, hg, Accessor.truthy]
  · intro k hk hne
    simp [getCellValue, hk, Accessor.truthy, hne]
  · rintro (ha | ha) <;> simp [getCellValue, ha, Accessor.truthy]

/-- Row for the C1 witness. -/
def c1wRow : Row := [("name", JSValue.str "Alice")]

/-- Cell renderer for the C1 witness: wraps the received value in a node. -/
def c1wCellFn : JSValue → Row → Nat → JSValue := fun v _ _ => JSValue.node "b" v

/-- Column for the C1 witness: field key accessor plus cell renderer. -/
def c1wColumn : Column :=
  Column.mk "name" (JSValue.str "Name") (some (Accessor.field "name")) (some c1wCellFn) none none none

/-- C1 witness: the amended theorem evaluated at a concrete column with a
cell renderer and a nonempty field key accessor. -/
theorem c1_cell_renderer_receives_accessor_value_witness :
    renderCell c1wRow c1wColumn 0 = c1wCellFn (getCellValue c1wRow c1wColumn) c1wRow 0
    ∧ getCellValue c1wRow c1wColumn = lookupRow c1wRow "name" :=
  ⟨(c1_cell_renderer_receives_accessor_value c1wRow c1wColumn 0 c1wCellFn rfl).1,
   (c1_cell_renderer_receives_accessor_value c1wRow c1wColumn 0 c1wCellFn rfl).2.2.1
     "name" rfl (by decide)⟩

/-! ### C2 -/

/-- Row holding a value under the empty string key. -/
def c2Row : Row := [("", JSValue.str "x")]

/-- Column whose accessor is the empty string field key, with no renderer. -/
def c2Column : Column :=
  Column.mk "c" JSValue.null (some (Accessor.field "")) none none none none

/-- C2 counterexample: for the column whose accessor is the empty string
field key, the resolved value is null, not the value stored on the row
under that key, refuting the claim as stated at this input. -/
theorem c2_counterexample :
    getCellValue c2Row c2Column = JSValue.null
    ∧ lookupRow c2Row "" = JSValue.str "x"
    ∧ getCellValue c2Row c2Column ≠ lookupRow c2Row "" := by
  decide

/-- C2 (amended): for every column whose accessor is a nonempty field name
key and has no cell renderer, and for every row, the resolved and displayed
value equals the lookup of that key on the row. -/
theorem c2_field_key_resolves_to_row_lookup (row : Row) (col : Column) (i : Nat) (k : String)
    (ha : col.accessor = some (Accessor.field k)) (hk : k ≠ "") (hc : col.cell = none) :
    getCellValue row col = lookupRow row k
    ∧ renderCell row col i = lookupRow row k := by
  have hv : getCellValue row col = lookupRow row k := by
    simp [getCellValue, ha, Accessor.truthy, hk]
  exact ⟨hv, by simp [renderCell, hc, hv]⟩

/-- C2 witness: the amended theorem evaluated at the name column and the
sample row. -/
theorem c2_field_key_resolves_to_row_lookup_witness :
    getCellValue rowAlice colName = lookupRow rowAlice "name"
    ∧ renderCell rowAlice colName 0 = lookupRow rowAlice "name" :=
  c2_field_key_resolves_to_row_lookup rowAlice colName 0 "name" rfl (by decide) rfl

/-! ### C3 -/

/-- C3: with loading set, the body is exactly five skeleton rows, each made
of exactly one placeholder cell per column, every placeholder cell is the
pulse div, and the whole rendered table is unchanged under any replacement
of the data array. -/
theorem c3_loading_renders_five_skeleton_rows (p : DataTableProps) (h : p.loading = true) :
    (renderBody p).length = 5
    ∧ (∀ r, r ∈ renderBody p → ∃ i, r = BodyRow.skeleton i (SkeletonRow p.columns.length))
    ∧ (SkeletonRow p.columns.length).length = p.columns.length
    ∧ (∀ c, c ∈ SkeletonRow p.columns.length → c = pulseDiv)
    ∧ (∀ d : List Row,
        DataTable (DataTableProps.mk p.columns d p.loading p.emptyState p.bordered
          p.striped p.hoverable p.getRowKey p.onRowClick) = DataTable p) := by
  refine ⟨?_, ?_, ?_, ?_, ?_⟩
  · simp [renderBody, h]
  · intro r hr
    simp [renderBody, h, List.mem_map] at hr
    obtain ⟨i, _, rfl⟩ := hr
    exact ⟨i, rfl⟩
  · simp [SkeletonRow]
  · intro c hc
    simp [SkeletonRow, List.mem_map] at hc
    exact hc.2
  · intro d
    simp [DataTable, renderHeader, renderBody, h]

/-- Props for the C3 witness: loading with a nonempty data array. -/
def c3Props : DataTableProps :=
  DataTableProps.mk [colName, colStatus] [rowAlice] true none false false true none false

/-- C3 witness: five skeleton rows, with one cell per column, at a concrete
loading table whose data array is nonempty. -/
theorem c3_loading_renders_five_skeleton_rows_witness :
    (renderBody c3Props).length = 5
    ∧ (SkeletonRow c3Props.columns.length).length = c3Props.columns.length :=
  ⟨(c3_loading_renders_five_skeleton_rows c3Props rfl).1,
   (c3_loading_renders_five_skeleton_rows c3Props rfl).2.2.1⟩

/-! ### C4 -/

/-- Props for the C4 counterexample: not loading, empty data, and a
supplied empty state that is the empty string, a falsy renderable. -/
def c4Props : DataTableProps :=
  DataTableProps.mk [colName] [] false (some (JSValue.str "")) false false true none false

/-- C4 counterexample: with a caller supplied falsy empty state, the single
empty state row shows the default message rather than the supplied value,
refuting the claim as stated at this input. -/
theorem c4_counterexample :
    renderBody c4Props = [BodyRow.emptyMessage 1 defaultEmptyMessage]
    ∧ renderBody c4Props ≠ [BodyRow.emptyMessage 1 (JSValue.str "")] := by
  decide

/-- C4 (amended): when loading is false and data is empty, the body is one
row whose single cell spans all columns, showing the caller supplied
emptyState when it is supplied and truthy, and the default message when it
is absent; a supplied falsy emptyState also falls back to the default. -/
theorem c4_empty_state_row (p : DataTableProps) (hl : p.loading = false) (hd : p.data = []) :
    renderBody p = [BodyRow.emptyMessage p.columns.length (emptyStateContent p.emptyState)]
    ∧ (∀ e, p.emptyState = some e → e.truthy = true → emptyStateContent p.emptyState = e)
    ∧ (p.emptyState = none → emptyStateContent p.emptyState = defaultEmptyMessage) := by
  refine ⟨?_, ?_, ?_⟩
  · simp [renderBody, hl, hd, isEmpty]
  · intro e he ht
    simp [emptyStateContent, he, ht]
  · intro he
    simp [emptyStateContent, he]

/-- Props for the C4 witness: empty data with a truthy empty state. -/
def c4wProps : DataTableProps :=
  DataTableProps.mk [colName, colStatus] [] false (some (JSValue.str "Nothing here"))
    false false true none false

/-- C4 witness: the amended theorem evaluated at a concrete empty table
with a truthy supplied empty state. -/
theorem c4_empty_state_row_witness :
    renderBody c4wProps =
      [BodyRow.emptyMessage c4wProps.columns.length (emptyStateContent c4wProps.emptyState)]
    ∧ emptyStateContent c4wProps.emptyState = JSValue.str "Nothing here" :=
  ⟨(c4_empty_state_row c4wProps rfl rfl).1,
   (c4_empty_state_row c4wProps rfl rfl).2.1 (JSValue.str "Nothing here") rfl (by decide)⟩

/-! ### C5 -/

/-- C5: when loading is false and data is nonempty, the body is exactly the
indexed map of the data array: one data row per element, in order, the row
at index i built from the element at index i, with key getRowKey of the row
and the index when the prop is supplied and the positional index otherwise. -/
theorem c5_one_row_per_data_element (p : DataTableProps) (hl : p.loading = false)
    (hd : p.data ≠ []) :
    renderBody p = mapIndexed (renderDataRow p) 0 p.data
    ∧ (renderBody p).length = p.data.length
    ∧ (∀ i row, p.data.get? i = some row →
        (renderBody p).get? i = some (BodyRow.dataRow (rowKeyOf p.getRowKey row i)
          (p.striped && i % 2 == 1) p.hoverable p.onRowClick
          (p.columns.map fun c => RenderedCell.mk c.id c.align (renderCell row c i))))
    ∧ (∀ f row i, p.getRowKey = some f → rowKeyOf p.getRowKey row i = f row i)
    ∧ (p.getRowKey = none → ∀ row i, rowKeyOf p.getRowKey row i = JSValue.num (Int.ofNat i)) := by
  have hbody : renderBody p = mapIndexed (renderDataRow p) 0 p.data := by
    simp [renderBody, hl, isEmpty, List.length_eq_zero, hd]
  refine ⟨hbody, ?_, ?_, ?_, ?_⟩
  · rw [hbody]
    exact mapIndexed_length _ _ _
  · intro i row hrow
    rw [hbody, mapIndexed_get?, hrow]
    simp [renderDataRow]
  · intro f row i hf
    simp [rowKeyOf, hf]
  · intro hf row i
    simp [rowKeyOf, hf]

/-- Props for the C5 witness: one data row, no getRowKey. -/
def c5Props : DataTableProps :=
  DataTableProps.mk [colName, colStatus] [rowAlice] false none false false true none false

/-- C5 witness: the theorem evaluated at a concrete table with one data
row, checking the row count. -/
theorem c5_one_row_per_data_element_witness :
    (renderBody c5Props).length = c5Props.data.length
    ∧ rowKeyOf c5Props.getRowKey rowAlice 0 = JSValue.num 0 :=
  ⟨(c5_one_row_per_data_element c5Props rfl (by decide)).2.1,
   (c5_one_row_per_data_element c5Props rfl (by decide)).2.2.2.2 rfl rowAlice 0⟩

/-! ### C6 -/

/-- C6: for every column whose accessor is a function and which has no cell
renderer, and for every row and index, both the resolved value and the
displayed content equal the accessor applied to the row. -/
theorem c6_function_accessor_value_displayed (row : Row) (col : Column) (i : Nat)
    (g : Row → JSValue) (ha : col.accessor = some (Accessor.fn g)) (hc : col.cell = none) :
    getCellValue row col = g row
    ∧ renderCell row col i = g row := by
  have hv : getCellValue row col = g row := by
    simp [getCellValue, ha, Accessor.truthy]
  exact ⟨hv, by simp [renderCell, hc, hv]⟩

/-- Column for the C6 witness: function accessor, no cell renderer. -/
def c6Column : Column :=
  Column.mk "fmt" (JSValue.str "Fmt") (some (Accessor.fn boldName)) none none none none

/-- C6 witness: the theorem evaluated at a concrete function accessor
column and the sample row. -/
theorem c6_function_accessor_value_displayed_witness :
    renderCell rowAlice c6Column 0 = boldName rowAlice :=
  (c6_function_accessor_value_displayed rowAlice c6Column 0 boldName rfl rfl).2

/-! ### C7 -/

/-- C7: cell resolution is total and degrades silently: it always produces
some value, a column with neither cell renderer nor accessor resolves to
null for every row, a truthy field key missing from the row resolves to
undefined, and both null and undefined are falsy, hence render as empty
content. -/
theorem c7_resolution_never_fails (row : Row) (col : Column) (i : Nat) :
    (∃ v, renderCell row col i = v)
    ∧ (col.cell = none → col.accessor = none → renderCell row col i = JSValue.null)
    ∧ (∀ k, col.accessor = some (Accessor.field k) → k ≠ "" → List.lookup k row = none →
        getCellValue row col = JSValue.undefined)
    ∧ JSValue.truthy JSValue.null = false
    ∧ JSValue.truthy JSValue.undefined = false := by
  refine ⟨⟨renderCell row col i, rfl⟩, ?_, ?_, rfl, rfl⟩
  · intro hc ha
    simp [renderCell, getCellValue, hc, ha]
  · intro k ha hk hmiss
    simp [getCellValue, ha, Accessor.truthy, hk, lookupRow, hmiss]

/-- Column for the C7 witness: neither accessor nor cell renderer. -/
def c7Column : Column :=
  Column.mk "blank" (JSValue.str "Blank") none none none none none

/-- Column for the C7 witness: a truthy field key absent from the row. -/
def c7MissColumn : Column :=
  Column.mk "age" (JSValue.str "Age") (some (Accessor.field "age")) none none none none

/-- C7 witness: the theorem evaluated at a column with no accessor and no
renderer, and at a column whose field key is missing from the row. -/
theorem c7_resolution_never_fails_witness :
    renderCell rowAlice c7Column 0 = JSValue.null
    ∧ getCellValue rowAlice c7MissColumn = JSValue.undefined :=
  ⟨(c7_resolution_never_fails rowAlice c7Column 0).2.1 rfl rfl,
   (c7_resolution_never_fails rowAlice c7MissColumn 0).2.2.1 "age" rfl (by decide) (by decide)⟩

/-! ### C8 -/

/-- C8: the component is a deterministic pure function of its props: the
rendered table is a function of the props record alone, so identical props
give identical output, and cell resolution of the same row, column and
index always produces the same value. The embedding is a total function, so
resolution is referentially transparent by construction. -/
theorem c8_render_deterministic (p q : DataTableProps) (h : p = q) :
    DataTable p = DataTable q
    ∧ (∀ row col i, renderCell row col i = renderCell row col i) := by
  subst h
  exact ⟨rfl, fun _ _ _ => rfl⟩

/-- C8 witness: rendering the concrete one row table twice yields the same
output. -/
theorem c8_render_deterministic_witness :
    DataTable c5Props = DataTable c5Props :=
  (c8_render_deterministic c5Props c5Props rfl).1

/-! ### C9 -/

/-- C9: a column whose accessor is the empty string field key is treated
exactly like a column with no accessor: the resolved value is null, the
whole rendered cell equals the rendered cell of the same column with the
accessor removed, and a cell renderer on such a column receives null as its
value. -/
theorem c9_empty_string_key_like_no_accessor (row : Row) (col : Column) (i : Nat)
    (ha : col.accessor = some (Accessor.field "")) :
    getCellValue row col = JSValue.null
    ∧ renderCell row col i =
        renderCell row (Column.mk col.id col.header none col.cell col.width col.align col.sortable) i
    ∧ (∀ f, col.cell = some f → renderCell row col i = f JSValue.null row i) := by
  have h1 : getCellValue row col = JSValue.null := by
    simp [getCellValue, ha, Accessor.truthy]
  have h2 : getCellValue row
      (Column.mk col.id col.header none col.cell col.width col.align col.sortable) = JSValue.null := by
    simp [getCellValue]
  refine ⟨h1, ?_, ?_⟩
  · simp [renderCell, h1, h2]
  · intro f hf
    simp [renderCell, hf, h1]

/-- Row for the C9 witness: a value stored under the empty string key. -/
def c9Row : Row := [("", JSValue.str "hidden")]

/-- Column for the C9 witness: empty string field key, no renderer. -/
def c9Column : Column :=
  Column.mk "e" (JSValue.str "E") (some (Accessor.field "")) none none none none

/-- C9 witness: at a row that stores a value under the empty string key,
the resolved value is still null, not that stored value. -/
theorem c9_empty_string_key_like_no_accessor_witness :
    getCellValue c9Row c9Column = JSValue.null
    ∧ lookupRow c9Row "" = JSValue.str "hidden" :=
  ⟨(c9_empty_string_key_like_no_accessor c9Row c9Column 0 rfl).1, by decide⟩

/-! ### C10 -/

/-- C10: in the empty state, a caller supplied emptyState that is falsy is
not shown: the single empty state row carries the default message instead,
because the fallback is chosen by JavaScript disjunction on the value. -/
theorem c10_falsy_empty_state_falls_back (p : DataTableProps) (e : JSValue)
    (hl : p.loading = false) (hd : p.data = []) (he : p.emptyState = some e)
    (ht : e.truthy = false) :
    renderBody p = [BodyRow.emptyMessage p.columns.length defaultEmptyMessage] := by
  simp [renderBody, hl, hd, isEmpty, emptyStateContent, he, ht]

/-- Props for the C10 witness: empty data with the empty string supplied as
empty state. -/
def c10Props : DataTableProps :=
  DataTableProps.mk [colName] [] false (some (JSValue.str "")) false false true none false

/-- C10 witness: with the falsy empty string supplied as emptyState, the
default message is rendered. -/
theorem c10_falsy_empty_state_falls_back_witness :
    renderBody c10Props = [BodyRow.emptyMessage 1 defaultEmptyMessage] :=
  c10_falsy_empty_state_falls_back c10Props (JSValue.str "") rfl rfl rfl rfl
